import Mathlib

/-!
Verification of the llm-router gateway against its specification.

Shallow embedding of `crates/llm-router-gateway-api`: the JSON value model
(serde_json `Value`), the circuit breaker (`circuitbreaker.rs`), the retry
engine (`retry.rs`), the configuration store (`config.rs`), the API-key
middleware (`auth.rs`), the load balancer (`loadbalance.rs`), the response
cache (`cache.rs`, including SHA-256 and base64 for `generate_key`), and the
error taxonomy (`error.rs`).  Machine integers are modelled as `Nat` with
explicit wraparound where overflow matters, `f64` request parameters and
timestamps as `ℚ`, fallible code as `Option`/`Except`, and a Rust `panic!`
as an explicit `panics` result.
-/

/-! ### JSON value model (serde_json `Value`)

`serde_json`'s `Value` with the default `BTreeMap` object representation:
objects are key/value association lists with duplicate-free keys, and
serialisation iterates keys in sorted order.  Numbers (`f64`) are modelled
as `ℚ`. -/

inductive JsonValue where
  | null : JsonValue
  | bool (b : Bool) : JsonValue
  | num (q : ℚ) : JsonValue
  | str (s : String) : JsonValue
  | arr (items : List JsonValue) : JsonValue
  | obj (fields : List (String × JsonValue)) : JsonValue

/-- First-match association-list lookup (`BTreeMap::get` on the model). -/
def lookupKV (k : String) : List (String × JsonValue) → Option JsonValue
  | [] => none
  | (k', v) :: rest => if k' = k then some v else lookupKV k rest

/-- `Value::get(key)`: `Some` on objects containing the key, `None` otherwise. -/
def JsonValue.getKey (j : JsonValue) (k : String) : Option JsonValue :=
  match j with
  | .obj fields => lookupKV k fields
  | _ => none

/-- `Value::as_bool`. -/
def JsonValue.asBool : JsonValue → Option Bool
  | .bool b => some b
  | _ => none

/-- `Value::as_f64` (numbers only; the model carries exact rationals). -/
def JsonValue.asF64 : JsonValue → Option ℚ
  | .num q => some q
  | _ => none

/-! ### Circuit breaker (`circuitbreaker.rs`)

`Instant` timestamps are modelled as `ℚ` (seconds); `Instant::elapsed`
saturates at zero, hence `elapsedQ`.  `is_request_allowed` returns the
boolean together with the (possibly mutated) breaker, since the
`Open → HalfOpen` transition happens inside it. -/

inductive CircuitState where
  | Closed
  | Open
  | HalfOpen
deriving DecidableEq

structure CircuitBreaker where
  state : CircuitState
  failure_threshold : Nat
  reset_timeout : ℚ
  half_open_timeout : ℚ
  failure_count : Nat
  last_failure_time : Option ℚ
  half_open_time : Option ℚ
deriving DecidableEq

/-- `Instant::elapsed`, saturating at zero. -/
def elapsedQ (now earlier : ℚ) : ℚ := max (now - earlier) 0

/-- `CircuitBreaker::new(failure_threshold, reset_timeout_secs)`. -/
def CircuitBreaker.new (failure_threshold : Nat) (reset_timeout_secs : Nat) :
    CircuitBreaker where
  state := .Closed
  failure_threshold := failure_threshold
  reset_timeout := (reset_timeout_secs : ℚ)
  half_open_timeout := 5
  failure_count := 0
  last_failure_time := none
  half_open_time := none

/-- `CircuitBreaker::is_request_allowed`, at an explicit current instant. -/
def CircuitBreaker.is_request_allowed (cb : CircuitBreaker) (now : ℚ) :
    Bool × CircuitBreaker :=
  match cb.state with
  | .Closed => (true, cb)
  | .Open =>
    match cb.last_failure_time with
    | some lf =>
      if elapsedQ now lf > cb.reset_timeout then
        (true, { cb with state := .HalfOpen, half_open_time := some now })
      else
        (false, cb)
    | none => (false, cb)
  | .HalfOpen =>
    match cb.half_open_time with
    | some hot => (decide (elapsedQ now hot > cb.half_open_timeout), cb)
    | none => (true, cb)

/-- `CircuitBreaker::record_success`. -/
def CircuitBreaker.record_success (cb : CircuitBreaker) : CircuitBreaker :=
  match cb.state with
  | .HalfOpen => { cb with state := .Closed, failure_count := 0 }
  | .Closed => { cb with failure_count := 0 }
  | .Open => cb

/-- `CircuitBreaker::record_failure`, at an explicit current instant. -/
def CircuitBreaker.record_failure (cb : CircuitBreaker) (now : ℚ) : CircuitBreaker :=
  let cb := { cb with last_failure_time := some now }
  match cb.state with
  | .Closed =>
    let count := cb.failure_count + 1
    if count ≥ cb.failure_threshold then
      { cb with failure_count := count, state := .Open }
    else
      { cb with failure_count := count }
  | .HalfOpen => { cb with state := .Open }
  | .Open => cb

/-- Folding a list of failure instants into a breaker. -/
def applyFailures (cb : CircuitBreaker) (ts : List ℚ) : CircuitBreaker :=
  ts.foldl CircuitBreaker.record_failure cb

/-- One recorded failure in `Closed`, still strictly below the threshold. -/
theorem record_failure_closed_stay (cb : CircuitBreaker) (t : ℚ)
    (hs : cb.state = .Closed) (hlt : cb.failure_count + 1 < cb.failure_threshold) :
    cb.record_failure t =
      { cb with last_failure_time := some t, failure_count := cb.failure_count + 1 } := by
  cases cb with
  | mk st ft rt hot fc lft hopt =>
    simp only at hs hlt
    subst hs
    simp [CircuitBreaker.record_failure, Nat.not_le_of_lt hlt]

/-- One recorded failure in `Closed` that reaches the threshold: the breaker
trips to `Open`. -/
theorem record_failure_closed_trip (cb : CircuitBreaker) (t : ℚ)
    (hs : cb.state = .Closed) (hge : cb.failure_count + 1 ≥ cb.failure_threshold) :
    cb.record_failure t =
      { cb with last_failure_time := some t, failure_count := cb.failure_count + 1,
                state := .Open } := by
  cases cb with
  | mk st ft rt hot fc lft hopt =>
    simp only at hs hge
    subst hs
    simp [CircuitBreaker.record_failure, hge]

/-- Folding failures over a `Closed` breaker that stays strictly below the
threshold: it remains `Closed`, the counter adds the number of failures, and
the last-failure stamp is the last instant (or the old stamp for `[]`). -/
theorem applyFailures_closed (ts : List ℚ) (cb : CircuitBreaker)
    (hs : cb.state = .Closed)
    (hlt : cb.failure_count + ts.length < cb.failure_threshold) :
    applyFailures cb ts =
      { cb with failure_count := cb.failure_count + ts.length,
                last_failure_time := ts.getLast?.or cb.last_failure_time } := by
  induction ts generalizing cb with
  | nil =>
    cases cb with
    | mk st ft rt hot fc lft hopt => simp [applyFailures]
  | cons t rest ih =>
    have hstep := record_failure_closed_stay cb t hs (by simp at hlt; omega)
    have hrec := ih (cb.record_failure t) (by rw [hstep]; simpa using hs)
      (by rw [hstep]; simp at hlt ⊢; omega)
    unfold applyFailures at hrec ⊢
    simp only [List.foldl_cons]
    rw [hrec, hstep]
    cases rest with
    | nil => simp
    | cons b bs =>
      simp only [List.getLast?_cons_cons, List.length_cons]
      congr 1
      omega

/-- C3: a breaker that starts `Closed` with counter `0` increments the
counter on each of `failure_threshold` consecutive recorded failures, ends
`Open`, and while the elapsed time since the last recorded failure is within
`reset_timeout`, `is_request_allowed` returns `false`. -/
theorem claim_c3_breaker_trips_and_blocks (ft rt : Nat) (ts : List ℚ) (tl now : ℚ)
    (hft : 0 < ft) (hlen : ts.length = ft) (hlast : ts.getLast? = some tl)
    (hwithin : elapsedQ now tl ≤ (rt : ℚ)) :
    (∀ k, k ≤ ft →
      (applyFailures (CircuitBreaker.new ft rt) (ts.take k)).failure_count = k) ∧
    (applyFailures (CircuitBreaker.new ft rt) ts).state = .Open ∧
    ((applyFailures (CircuitBreaker.new ft rt) ts).is_request_allowed now).1 = false := by
  have hne : ts ≠ [] := by
    intro h
    rw [h] at hlen
    simp at hlen
    omega
  have hsplit : ts.dropLast ++ [tl] = ts :=
    List.dropLast_append_getLast? tl hlast
  have hdrop : ts.dropLast.length = ft - 1 := by
    simp [List.length_dropLast, hlen]
  have hmid := applyFailures_closed ts.dropLast (CircuitBreaker.new ft rt) rfl
    (by simp [CircuitBreaker.new, hdrop]; omega)
  have hfinal : applyFailures (CircuitBreaker.new ft rt) ts =
      { CircuitBreaker.new ft rt with
          failure_count := ft, last_failure_time := some tl, state := .Open } := by
    conv_lhs => rw [← hsplit]
    show ((ts.dropLast ++ [tl]).foldl CircuitBreaker.record_failure _) = _
    rw [List.foldl_append]
    show (applyFailures (CircuitBreaker.new ft rt) ts.dropLast).record_failure tl = _
    rw [hmid]
    rw [record_failure_closed_trip _ _ (by rfl) (by simp [CircuitBreaker.new, hdrop]; omega)]
    simp [CircuitBreaker.new, hdrop]
    omega
  refine ⟨?_, by rw [hfinal], ?_⟩
  · intro k hk
    rcases Nat.lt_or_ge k ft with hklt | hkge
    · have htk : (ts.take k).length = k := by
        simp [List.length_take, hlen]
        omega
      rw [applyFailures_closed (ts.take k) (CircuitBreaker.new ft rt) rfl
        (by simp [CircuitBreaker.new, htk]; omega)]
      simp [CircuitBreaker.new, htk]
    · have hkft : k = ft := le_antisymm hk hkge
      subst hkft
      have htake : ts.take k = ts := List.take_of_length_le (le_of_eq hlen)
      rw [htake, hfinal]
  · rw [hfinal]
    simp only [CircuitBreaker.is_request_allowed, CircuitBreaker.new]
    rw [if_neg (by exact not_lt.mpr hwithin)]

/-- Witness for C3 at `failure_threshold = 2`, `reset_timeout = 30`,
failures at instants 1 and 2, queried at instant 10. -/
theorem claim_c3_witness :
    ((applyFailures (CircuitBreaker.new 2 30) [(1 : ℚ), 2]).is_request_allowed 10).1 =
      false :=
  (claim_c3_breaker_trips_and_blocks 2 30 [(1 : ℚ), 2] 2 10 (by decide) (by decide)
    (by decide) (by norm_num [elapsedQ])).2.2

/-- C4 (amended): once the reset timeout admits a probe, the probe moves the
breaker to `HalfOpen`; further `is_request_allowed` calls return `false`
while at most `half_open_timeout` has elapsed since entering `HalfOpen`, but
return `true` again past that window even though no result was recorded. -/
theorem claim_c4_half_open_window (cb : CircuitBreaker) (lf t0 : ℚ)
    (hs : cb.state = .Open) (hlf : cb.last_failure_time = some lf)
    (hto : elapsedQ t0 lf > cb.reset_timeout) :
    (cb.is_request_allowed t0).1 = true ∧
    ((cb.is_request_allowed t0).2).state = .HalfOpen ∧
    ((cb.is_request_allowed t0).2).half_open_time = some t0 ∧
    (∀ t, elapsedQ t t0 ≤ cb.half_open_timeout →
      (((cb.is_request_allowed t0).2).is_request_allowed t).1 = false) ∧
    (∀ t, elapsedQ t t0 > cb.half_open_timeout →
      (((cb.is_request_allowed t0).2).is_request_allowed t).1 = true) := by
  cases cb with
  | mk st ft rt hot fc lft hopt =>
    simp only at hs hlf hto ⊢
    subst hs
    subst hlf
    have hfirst : CircuitBreaker.is_request_allowed ⟨.Open, ft, rt, hot, fc, some lf, hopt⟩ t0 =
        (true, ⟨.HalfOpen, ft, rt, hot, fc, some lf, some t0⟩) := by
      simp [CircuitBreaker.is_request_allowed, hto]
    rw [hfirst]
    refine ⟨rfl, rfl, rfl, ?_, ?_⟩
    · intro t ht
      simp only [CircuitBreaker.is_request_allowed]
      simp [not_lt.mpr ht]
    · intro t ht
      simp only [CircuitBreaker.is_request_allowed]
      simp [ht]

/-- Counterexample to C4 as stated: breaker with threshold 1 and reset
timeout 10; a failure at instant 0, the probe at instant 11 (allowed,
`HalfOpen`), then a second call at instant 17 with **no** result recorded in
between is allowed again — it does not return `false`. -/
theorem claim_c4_counterexample :
    (((CircuitBreaker.new 1 10).record_failure 0).is_request_allowed 11).1 = true ∧
    ((((CircuitBreaker.new 1 10).record_failure 0).is_request_allowed 11).2.state =
      CircuitState.HalfOpen) ∧
    (((((CircuitBreaker.new 1 10).record_failure 0).is_request_allowed 11).2).is_request_allowed
        17).1 = true := by
  refine ⟨?_, ?_, ?_⟩ <;>
    norm_num [CircuitBreaker.new, CircuitBreaker.record_failure,
      CircuitBreaker.is_request_allowed, elapsedQ]

/-- Witness for the amended C4: the probe at instant 11 is allowed, and a
follower at instant 13 (within the 5-second half-open window) is refused. -/
theorem claim_c4_witness :
    (((CircuitBreaker.new 1 10).record_failure 0).is_request_allowed 11).1 = true ∧
    (((((CircuitBreaker.new 1 10).record_failure 0).is_request_allowed 11).2).is_request_allowed
        13).1 = false := by
  have h := claim_c4_half_open_window ((CircuitBreaker.new 1 10).record_failure 0) 0 11
    (by norm_num [CircuitBreaker.new, CircuitBreaker.record_failure])
    (by norm_num [CircuitBreaker.new, CircuitBreaker.record_failure])
    (by norm_num [CircuitBreaker.new, CircuitBreaker.record_failure, elapsedQ])
  exact ⟨h.1, h.2.2.2.1 13
    (by norm_num [CircuitBreaker.new, CircuitBreaker.record_failure, elapsedQ])⟩

/-- C10: `record_success` is a no-op on an `Open` breaker; it has an effect
only in `HalfOpen` (closes the breaker, counter to 0) and in `Closed`
(resets the counter to 0). -/
theorem claim_c10_record_success_frame (cb : CircuitBreaker) :
    (cb.state = .Open → cb.record_success = cb) ∧
    (cb.state = .HalfOpen →
      cb.record_success = { cb with state := .Closed, failure_count := 0 }) ∧
    (cb.state = .Closed → cb.record_success = { cb with failure_count := 0 }) := by
  cases cb with
  | mk st ft rt hot fc lft hopt =>
    refine ⟨?_, ?_, ?_⟩ <;> intro hs <;> simp only at hs <;> subst hs <;>
      simp [CircuitBreaker.record_success]

/-- Witness for C10: a concrete `Open` breaker (threshold 1, one failure) is
unchanged by `record_success`. -/
theorem claim_c10_witness :
    ((CircuitBreaker.new 1 30).record_failure 0).record_success =
      (CircuitBreaker.new 1 30).record_failure 0 :=
  (claim_c10_record_success_frame _).1
    (by norm_num [CircuitBreaker.new, CircuitBreaker.record_failure])

/-! ### Retry engine (`retry.rs`)

`with_retry` is modelled on an *attempt oracle* `op : Nat → Except E T`
giving the outcome of the wrapped operation on each attempt (0-based).  The
returned pair is the final result together with the index of the attempt
that produced it; that index equals the number of retries performed, and
each retry is preceded by exactly one `track_retry` and one backoff sleep
in the source, so it also counts the sleeps. -/

/-- The loop body of `with_retry`: `remaining = max_retries - attempt`
re-expresses the source's `attempt >= max_retries` exit as structural
recursion. -/
def withRetryGo {E T : Type} (op : Nat → Except E T) (attempt : Nat) :
    Nat → Except E T × Nat
  | 0 => (op attempt, attempt)
  | remaining + 1 =>
    match op attempt with
    | .ok v => (.ok v, attempt)
    | .error _ => withRetryGo op (attempt + 1) remaining

/-- `with_retry(operation, max_retries, ...)`: result plus retry count. -/
def with_retry {E T : Type} (op : Nat → Except E T) (max_retries : Nat) :
    Except E T × Nat :=
  withRetryGo op 0 max_retries

/-- `is_retryable_error(status_code)`: the source's `match` on the status,
written with decidable tests (matching on large `Nat` literals is
prohibitively deep in the kernel). -/
def is_retryable_error (status_code : Nat) : Bool :=
  if status_code = 500 ∨ status_code = 502 ∨ status_code = 503 ∨ status_code = 504 then
    true
  else if status_code = 429 then
    true
  else
    false

/-- The observable classification of a `reqwest::Error` used by
`is_reqwest_error_retryable`. -/
structure ReqwestError where
  is_connect : Bool
  is_timeout : Bool
  status : Option Nat
  is_request : Bool

/-- `is_reqwest_error_retryable(error)`. -/
def is_reqwest_error_retryable (e : ReqwestError) : Bool :=
  if e.is_connect || e.is_timeout then true
  else
    match e.status with
    | some s => is_retryable_error s
    | none => e.is_request

theorem withRetryGo_spec {E T : Type} (op : Nat → Except E T) :
    ∀ (remaining attempt : Nat),
    attempt ≤ (withRetryGo op attempt remaining).2 ∧
    (withRetryGo op attempt remaining).2 ≤ attempt + remaining ∧
    (withRetryGo op attempt remaining).1 = op (withRetryGo op attempt remaining).2 ∧
    (∀ k, attempt ≤ k → k < (withRetryGo op attempt remaining).2 →
      (op k).isOk = false) ∧
    ((withRetryGo op attempt remaining).2 < attempt + remaining →
      (op (withRetryGo op attempt remaining).2).isOk = true) := by
  intro remaining
  induction remaining with
  | zero =>
    intro attempt
    refine ⟨le_refl _, by simp [withRetryGo], rfl, ?_, ?_⟩
    · intro k hk hk'
      simp [withRetryGo] at hk'
      omega
    · intro h
      simp [withRetryGo] at h
  | succ rem ih =>
    intro attempt
    rcases hop : op attempt with e | v
    · have hgo : withRetryGo op attempt (rem + 1) = withRetryGo op (attempt + 1) rem := by
        simp [withRetryGo, hop]
      obtain ⟨h1, h2, h3, h4, h5⟩ := ih (attempt + 1)
      rw [hgo]
      refine ⟨by omega, by omega, h3, ?_, fun h => h5 (by omega)⟩
      intro k hk hk'
      rcases Nat.eq_or_lt_of_le hk with hke | hkl
      · rw [← hke, hop]; rfl
      · exact h4 k hkl hk'
    · have hgo : withRetryGo op attempt (rem + 1) = (.ok v, attempt) := by
        simp [withRetryGo, hop]
      rw [hgo]
      refine ⟨le_refl _, by omega, by rw [hop], ?_, ?_⟩
      · intro k hk hk'
        simp at hk'
        omega
      · intro _
        rw [hop]
        rfl

/-- C2 (amended): `with_retry` retries exactly while the attempt failed and
the attempt index is below `max_retries`, *regardless* of retryability: the
result is the first success, or the outcome of attempt `max_retries`; every
attempt before the final one had failed.  `is_retryable_error` does hold
exactly on {429, 500, 502, 503, 504}, and `is_reqwest_error_retryable`
exactly on connect/timeout errors, carried retryable statuses, and
status-free request errors — but `with_retry` never consults either. -/
theorem claim_c2_retry_behavior {E T : Type} (op : Nat → Except E T) (m : Nat) :
    ((with_retry op m).2 ≤ m ∧
     (with_retry op m).1 = op (with_retry op m).2 ∧
     (∀ k, k < (with_retry op m).2 → (op k).isOk = false) ∧
     ((with_retry op m).2 < m → (op (with_retry op m).2).isOk = true)) ∧
    (∀ s, is_retryable_error s = true ↔
      s = 429 ∨ s = 500 ∨ s = 502 ∨ s = 503 ∨ s = 504) ∧
    (∀ e : ReqwestError, is_reqwest_error_retryable e = true ↔
      (e.is_connect = true ∨ e.is_timeout = true ∨
       (∃ s, e.status = some s ∧ is_retryable_error s = true) ∨
       (e.status = none ∧ e.is_request = true))) := by
  refine ⟨?_, ?_, ?_⟩
  · obtain ⟨h1, h2, h3, h4, h5⟩ := withRetryGo_spec op m 0
    exact ⟨by simpa [with_retry] using h2, h3, fun k hk => h4 k (Nat.zero_le k) hk,
      by simpa [with_retry] using h5⟩
  · intro s
    constructor
    · intro h
      simp only [is_retryable_error] at h
      split_ifs at h with h1 h2
      all_goals tauto
    · rintro (rfl | rfl | rfl | rfl | rfl) <;> rfl
  · intro e
    rcases e with ⟨ec, et, es, er⟩
    simp only [is_reqwest_error_retryable]
    rcases ec <;> rcases et <;> rcases es with _ | s <;> rcases er <;> simp

/-- Counterexample to C2 as stated: status 400 is not retryable, yet with
`max_retries = 2` the engine performs two retries (each with its backoff
sleep) before surfacing the same error. -/
theorem claim_c2_counterexample :
    (with_retry (fun _ => (Except.error 400 : Except Nat Unit)) 2).2 = 2 ∧
    (with_retry (fun _ => (Except.error 400 : Except Nat Unit)) 2).1 =
      Except.error 400 ∧
    is_retryable_error 400 = false :=
  ⟨rfl, rfl, rfl⟩

/-- Witness for the amended C2: an operation failing on attempt 0 and
succeeding on attempt 1, run with `max_retries = 3`, stops at attempt 1
with the success, having failed at attempt 0. -/
theorem claim_c2_witness :
    ((fun i => if i = 1 then Except.ok 7 else (Except.error 400 : Except Nat Nat)) 0).isOk =
      false ∧
    (with_retry (fun i => if i = 1 then Except.ok 7 else (Except.error 400 : Except Nat Nat))
        3).2 ≤ 3 := by
  have h := claim_c2_retry_behavior
    (fun i => if i = 1 then Except.ok 7 else (Except.error 400 : Except Nat Nat)) 3
  exact ⟨h.1.2.2.1 0 (by decide), h.1.1⟩

/-! ### Error taxonomy (`error.rs`)

`StatusCode` is modelled as `Nat` (the `u16` wire value); the foreign
wrapped errors (`serde_json::Error`, `std::io::Error`, `http::Error`,
`hyper::Error`) are modelled by their display strings.  `to_response`
returns the HTTP status together with the JSON body it serialises; the
"re-parse" of the claim is reading fields back out of that body. -/

inductive ErrorSource where
  | Triton
  | LlmProvider
  | Router
  | Client
  | Infrastructure
deriving DecidableEq

/-- `impl Display for ErrorSource`. -/
def ErrorSource.display : ErrorSource → String
  | .Triton => "triton"
  | .LlmProvider => "llm_provider"
  | .Router => "router"
  | .Client => "client"
  | .Infrastructure => "infrastructure"

inductive RoutingErrorType where
  | PolicyNotFound
  | ModelNotFound
  | NoRoutingStrategy
  | InvalidConfiguration
  | TritonUnavailable
deriving DecidableEq

inductive GatewayApiError where
  | TritonError (message : String) (code : Nat) (details : Option String)
  | LlmServiceError (status : Nat) (message : String) (provider : String)
      (details : Option JsonValue)
  | RoutingError (message : String) (error_type : RoutingErrorType)
  | ClientError (status : Nat) (message : String) (error_type : String)
  | Infrastructure (message : String)
  | JsonError (message : String)
  | IoError (message : String)
  | HttpError (message : String)
  | HyperError (message : String)
  | InvalidRequest (message : String)
  | TritonServiceError (status_code : Nat) (message : String)
  | UnexpectedError (message : String)
  | PolicyNotFound (policy : String)
  | ModelNotFound (model : String)
  | MissingPolicy
  | Other (message : String)

/-- `GatewayApiError::error_source`. -/
def GatewayApiError.error_source : GatewayApiError → ErrorSource
  | .TritonError _ _ _ => .Triton
  | .LlmServiceError _ _ _ _ => .LlmProvider
  | .RoutingError _ _ => .Router
  | .ClientError _ _ _ => .Client
  | _ => .Infrastructure

/-- `GatewayApiError::status_code`; `StatusCode::from_u16` accepts 100..999
and the source falls back to 503 otherwise. -/
def GatewayApiError.status_code : GatewayApiError → Nat
  | .TritonError _ code _ => if 100 ≤ code ∧ code < 1000 then code else 503
  | .LlmServiceError status _ _ _ => status
  | .ClientError status _ _ => status
  | .RoutingError _ et =>
    match et with
    | .PolicyNotFound => 400
    | .ModelNotFound => 404
    | .NoRoutingStrategy => 400
    | .InvalidConfiguration => 500
    | .TritonUnavailable => 503
  | _ => 500

/-- The `thiserror`-derived `Display` of `GatewayApiError`. -/
def GatewayApiError.displayMessage : GatewayApiError → String
  | .TritonError msg _ _ => "Triton Error: " ++ msg
  | .LlmServiceError _ msg _ _ => "LLM Service Error: " ++ msg
  | .RoutingError msg _ => "Routing Error: " ++ msg
  | .ClientError _ msg _ => "Client Error: " ++ msg
  | .Infrastructure msg => "Infrastructure Error: " ++ msg
  | .JsonError msg => msg
  | .IoError msg => msg
  | .HttpError msg => msg
  | .HyperError msg => msg
  | .InvalidRequest msg => "Invalid request: " ++ msg
  | .TritonServiceError code msg =>
    "Triton service error (" ++ toString code ++ "): " ++ msg
  | .UnexpectedError msg => "Unexpected error: " ++ msg
  | .PolicyNotFound p => "Policy not found: " ++ p
  | .ModelNotFound m => "Model not found: " ++ m
  | .MissingPolicy => "No policy specified in nim-llm-router params"
  | .Other msg => "Other error: " ++ msg

/-- `GatewayApiError::error_type` (the stable slug). -/
def GatewayApiError.error_type : GatewayApiError → String
  | .TritonError _ _ _ => "triton_error"
  | .LlmServiceError _ _ _ _ => "llm_service_error"
  | .RoutingError _ et =>
    match et with
    | .PolicyNotFound => "routing_error_policy_not_found"
    | .ModelNotFound => "routing_error_model_not_found"
    | .NoRoutingStrategy => "routing_error_no_routing_strategy"
    | .InvalidConfiguration => "routing_error_invalid_configuration"
    | .TritonUnavailable => "routing_error_triton_unavailable"
  | .ClientError _ _ et => et
  | .Infrastructure _ => "infrastructure_error"
  | .JsonError _ => "json_error"
  | .IoError _ => "io_error"
  | .HttpError _ => "http_error"
  | .HyperError _ => "hyper_error"
  | .InvalidRequest _ => "invalid_request"
  | .TritonServiceError _ _ => "triton_service_error"
  | .UnexpectedError _ => "unexpected_error"
  | .PolicyNotFound _ => "policy_not_found"
  | .ModelNotFound _ => "model_not_found"
  | .MissingPolicy => "missing_policy"
  | .Other msg => "other_error: " ++ msg

/-- `GatewayApiError::to_response`: the HTTP status and the JSON error body
(the body serialisation itself cannot fail on these values). -/
def GatewayApiError.to_response (e : GatewayApiError) : Nat × JsonValue :=
  let status := e.status_code
  let source := e.error_source
  let etype := e.error_type
  let message := e.displayMessage
  let body : JsonValue :=
    match e with
    | .LlmServiceError s msg prov det =>
      .obj [("error", .obj
        [("type", .str etype), ("message", .str msg), ("status", .num (s : ℚ)),
         ("provider", .str prov), ("details", det.getD .null),
         ("source", .str source.display)])]
    | .TritonError msg code det =>
      .obj [("error", .obj
        [("type", .str etype), ("message", .str msg), ("code", .num (code : ℚ)),
         ("details", (det.map JsonValue.str).getD .null),
         ("source", .str source.display)])]
    | .RoutingError msg _ =>
      .obj [("error", .obj
        [("type", .str etype), ("message", .str msg), ("status", .num (status : ℚ)),
         ("source", .str source.display)])]
    | .ClientError s msg _ =>
      .obj [("error", .obj
        [("type", .str etype), ("message", .str msg), ("status", .num (s : ℚ)),
         ("source", .str source.display)])]
    | _ =>
      .obj [("error", .obj
        [("type", .str etype), ("message", .str message),
         ("source", .str source.display)])]
  (status, body)

/-- Reading a field back out of a serialised error body. -/
def errorField (body : JsonValue) (k : String) : Option JsonValue :=
  (body.getKey "error").bind (fun e => e.getKey k)

/-- C9: every listed error kind round-trips through `to_response` to the
expected `{type, source, status}` triple (the spec's `ProviderError` is the
source's `LlmServiceError`; its `ClassifierUnavailable` is the source's
`TritonUnavailable`). -/
theorem claim_c9_error_round_trip :
    (∀ msg, ((GatewayApiError.RoutingError msg .PolicyNotFound).to_response.1 = 400 ∧
      errorField (GatewayApiError.RoutingError msg .PolicyNotFound).to_response.2 "type" =
        some (.str "routing_error_policy_not_found") ∧
      errorField (GatewayApiError.RoutingError msg .PolicyNotFound).to_response.2 "source" =
        some (.str "router") ∧
      errorField (GatewayApiError.RoutingError msg .PolicyNotFound).to_response.2 "status" =
        some (.num 400))) ∧
    (∀ msg, ((GatewayApiError.RoutingError msg .ModelNotFound).to_response.1 = 404 ∧
      errorField (GatewayApiError.RoutingError msg .ModelNotFound).to_response.2 "type" =
        some (.str "routing_error_model_not_found") ∧
      errorField (GatewayApiError.RoutingError msg .ModelNotFound).to_response.2 "source" =
        some (.str "router") ∧
      errorField (GatewayApiError.RoutingError msg .ModelNotFound).to_response.2 "status" =
        some (.num 404))) ∧
    (∀ msg, ((GatewayApiError.RoutingError msg .NoRoutingStrategy).to_response.1 = 400 ∧
      errorField (GatewayApiError.RoutingError msg .NoRoutingStrategy).to_response.2 "source" =
        some (.str "router"))) ∧
    (∀ msg, ((GatewayApiError.RoutingError msg .InvalidConfiguration).to_response.1 = 500 ∧
      errorField
          (GatewayApiError.RoutingError msg .InvalidConfiguration).to_response.2 "source" =
        some (.str "router"))) ∧
    (∀ msg, ((GatewayApiError.RoutingError msg .TritonUnavailable).to_response.1 = 503 ∧
      errorField (GatewayApiError.RoutingError msg .TritonUnavailable).to_response.2 "source" =
        some (.str "router"))) ∧
    (∀ s msg prov det, ((GatewayApiError.LlmServiceError s msg prov det).to_response.1 = s ∧
      errorField (GatewayApiError.LlmServiceError s msg prov det).to_response.2 "source" =
        some (.str "llm_provider") ∧
      errorField (GatewayApiError.LlmServiceError s msg prov det).to_response.2 "status" =
        some (.num (s : ℚ)))) ∧
    (∀ s msg et, ((GatewayApiError.ClientError s msg et).to_response.1 = s ∧
      errorField (GatewayApiError.ClientError s msg et).to_response.2 "source" =
        some (.str "client") ∧
      errorField (GatewayApiError.ClientError s msg et).to_response.2 "status" =
        some (.num (s : ℚ)))) := by
  refine ⟨fun msg => ⟨rfl, rfl, rfl, rfl⟩, fun msg => ⟨rfl, rfl, rfl, rfl⟩,
    fun msg => ⟨rfl, rfl⟩, fun msg => ⟨rfl, rfl⟩, fun msg => ⟨rfl, rfl⟩,
    fun s msg prov det => ⟨rfl, rfl, rfl⟩, fun s msg et => ⟨rfl, rfl, rfl⟩⟩

/-! ### Configuration store (`config.rs`)

The configuration structures as in the source; `f64` knobs as `ℚ`. -/

structure ServerConfig where
  host : String
  port : Nat
  request_timeout : Nat
  connection_pool_size : Nat
deriving DecidableEq

structure RateLimitConfig where
  requests_per_second : ℚ
  burst_size : Nat
  per_ip : Bool
deriving DecidableEq

structure SecurityConfig where
  api_keys : Option (List String)
  rate_limit : Option RateLimitConfig
deriving DecidableEq

structure ObservabilityConfig where
  log_level : String
  json_logging : Bool
deriving DecidableEq

structure CachingConfig where
  enabled : Bool
  ttl_seconds : Option Nat
  max_size : Option Nat
deriving DecidableEq

structure RetryConfig where
  max_retries : Nat
  initial_backoff_ms : Nat
deriving DecidableEq

structure CircuitBreakerConfig where
  enabled : Bool
  failure_threshold : Nat
  reset_timeout_secs : Nat
deriving DecidableEq

/-- `Llm`: one concrete provider endpoint. -/
structure Llm where
  name : String
  api_base : String
  api_key : String
  model : String
deriving DecidableEq

structure Policy where
  name : String
  url : String
  llms : List Llm
deriving DecidableEq

structure RouterConfig where
  server : ServerConfig
  security : SecurityConfig
  observability : ObservabilityConfig
  caching : CachingConfig
  retry : RetryConfig
  circuit_breaker : CircuitBreakerConfig
  load_balancing_strategy : String
  policies : List Policy
deriving DecidableEq

/-- The `Default` implementation of `RouterConfig` with the source's
default values. -/
def RouterConfig.defaultConfig : RouterConfig where
  server := { host := "0.0.0.0", port := 8084, request_timeout := 60,
              connection_pool_size := 100 }
  security := { api_keys := none, rate_limit := none }
  observability := { log_level := "info", json_logging := false }
  caching := { enabled := false, ttl_seconds := some 300, max_size := some 1000 }
  retry := { max_retries := 2, initial_backoff_ms := 100 }
  circuit_breaker := { enabled := true, failure_threshold := 5,
                       reset_timeout_secs := 30 }
  load_balancing_strategy := "round_robin"
  policies := []

/-! The `ConfigManager` heap shape.  `ConfigManager` owns a `RwLock` cell
holding the current `RouterConfig`; cells live in an explicit store, and a
manager refers to its cell by index.  This captures the aliasing in the
source exactly: `impl Clone for ConfigManager` (config.rs:244-259)
allocates a **fresh** `RwLock` seeded with the current contents, and
`ConfigManager::new` (config.rs:198-235) hands `Arc::new(manager.clone())`
— the clone's cell, not the original's — to the spawned reload task. -/

inductive ConfigError where
  | MissingPolicyField (policy field : String)
  | MissingLlmField (llm field : String)
  | FileError (path error : String)
  | ParseError (message : String)

structure ConfigManagerSys where
  config_path : String
  cells : List RouterConfig
  manager_cell : Nat
  reloader_cell : Option Nat

/-- `ConfigManager::new(config_path)` given the successfully loaded initial
configuration `c0` and the `CONFIG_HOT_RELOAD` switch.  With hot reload on,
the spawned task captures `Arc::new(manager.clone())`, whose `Clone` created
a second cell seeded with `c0`; the returned manager keeps the first cell. -/
def ConfigManager.new (config_path : String) (c0 : RouterConfig)
    (hot_reload : Bool) : ConfigManagerSys :=
  if hot_reload then
    { config_path := config_path, cells := [c0, c0], manager_cell := 0,
      reloader_cell := some 1 }
  else
    { config_path := config_path, cells := [c0], manager_cell := 0,
      reloader_cell := none }

/-- One tick of the reload task with the outcome of
`RouterConfig::load_config`: on success it writes the freshly loaded
configuration through the cell the task holds; on failure it logs and
leaves everything in place. -/
def reload_tick (sys : ConfigManagerSys)
    (load_result : Except ConfigError RouterConfig) : ConfigManagerSys :=
  match sys.reloader_cell, load_result with
  | some i, .ok c => { sys with cells := sys.cells.set i c }
  | _, _ => sys

/-- `ConfigManager::get_config` on the manager returned by `new`: a clone of
the contents of the manager's own cell. -/
def get_config (sys : ConfigManagerSys) : Option RouterConfig :=
  sys.cells.get? sys.manager_cell

/-- C1 (bug exhibition): with `CONFIG_HOT_RELOAD` set, a reload tick that
successfully loads `c1` writes it into the *cloned* manager's cell
(cell 1), while `get_config` on the manager returned by `new` still reads
the original cell and returns the startup configuration `c0` — for every
`c0` and `c1`. -/
theorem claim_c1_hot_reload_lost (path : String) (c0 c1 : RouterConfig) :
    get_config (reload_tick (ConfigManager.new path c0 true) (.ok c1)) = some c0 ∧
    (reload_tick (ConfigManager.new path c0 true) (.ok c1)).cells.get? 1 = some c1 := by
  constructor <;> rfl

/-- C1, concrete divergence: starting from the default configuration and
reloading a configuration with a different port, `get_config` still returns
the old configuration, which differs from the new one. -/
theorem claim_c1_concrete_divergence :
    get_config (reload_tick
        (ConfigManager.new "config.yaml" RouterConfig.defaultConfig true)
        (.ok { RouterConfig.defaultConfig with
                 server := { RouterConfig.defaultConfig.server with port := 9000 } })) =
      some RouterConfig.defaultConfig ∧
    RouterConfig.defaultConfig ≠
      { RouterConfig.defaultConfig with
          server := { RouterConfig.defaultConfig.server with port := 9000 } } := by
  exact ⟨rfl, by decide⟩

/-! ### API-key authentication middleware (`auth.rs`)

`ApiKeyService::call` is modelled as a pure decision on the request parts
it inspects.  `HeaderValue::to_str()` can fail on non-ASCII header bytes;
that outcome is the `invalid` constructor. -/

/-- Rust `str::starts_with`, executable over the character list. -/
def strStartsWith (s pre : String) : Bool :=
  List.isPrefixOf pre.toList s.toList

/-- ASCII whitespace (sufficient for the keys and headers involved in
`str::trim`). -/
def isWhitespaceChar (c : Char) : Bool :=
  c = ' ' || c = '\t' || c = '\n' || c = '\r'

/-- Rust `str::trim`. -/
def strTrim (s : String) : String :=
  String.mk (((s.toList.dropWhile isWhitespaceChar).reverse.dropWhile
    isWhitespaceChar).reverse)

/-- Rust `str::split(c)`: always yields at least one (possibly empty)
piece. -/
def splitOnChar (c : Char) : List Char → List (List Char)
  | [] => [[]]
  | x :: xs =>
    let r := splitOnChar c xs
    if x = c then
      [] :: r
    else
      match r with
      | [] => [[x]]
      | h :: t => (x :: h) :: t

inductive HeaderParse where
  | valid (s : String)
  | invalid

structure AuthRequest where
  path : String
  query : Option String
  authorization : Option HeaderParse

inductive AuthDecision where
  | forwarded
  | rejected (e : GatewayApiError)

/-- Key extraction from a readable `Authorization` header value:
`strip_prefix("Bearer ")` then `trim`, else the raw value trimmed. -/
def extract_header_key (s : String) : String :=
  if strStartsWith s "Bearer " then
    strTrim (String.mk (s.toList.drop 7))
  else
    strTrim s

/-- Key extraction from the query string: the first `&`-separated parameter
starting with `api_key=` or `api-key=`, split at `=` and indexed at 1
(`none` on the outside means no such parameter; `some none` a parameter
with no value part). -/
def query_api_key (q : String) : Option (Option String) :=
  match (splitOnChar '&' q.toList).find?
      (fun param => strStartsWith (String.mk param) "api_key=" ||
        strStartsWith (String.mk param) "api-key=") with
  | some param => some (((splitOnChar '=' param).get? 1).map String.mk)
  | none => none

/-- `ApiKeyService::call` (auth.rs:74-178): the admission decision. -/
def api_key_service_call (config : RouterConfig) (req : AuthRequest) : AuthDecision :=
  if strStartsWith req.path "/health" || req.path = "/metrics" then
    .forwarded
  else
    match config.security.api_keys with
    | some keys =>
      if keys.isEmpty then
        .forwarded
      else
        let key? : Except GatewayApiError String :=
          match req.authorization with
          | some (.valid s) => .ok (extract_header_key s)
          | some .invalid =>
            .error (.InvalidRequest "Invalid Authorization header format")
          | none =>
            match req.query with
            | some q =>
              match query_api_key q with
              | some (some k) => .ok k
              | some none => .error (.InvalidRequest "API key parameter is empty")
              | none => .error (.InvalidRequest
                  "Missing API key in Authorization header or query parameter")
            | none => .error (.InvalidRequest
                "Missing API key in Authorization header or query parameter")
        match key? with
        | .error e => .rejected e
        | .ok key =>
          if keys.contains key then
            .forwarded
          else
            .rejected (.ClientError 401 "Invalid API key" "invalid_api_key")
    | none => .forwarded

/-- The status with which the top handler's `IntoResponse` serialises an
error (error.rs:352-393): `InvalidRequest ↦ 400`, `PolicyNotFound ↦ 404`,
otherwise `status_code`. -/
def into_response_status (e : GatewayApiError) : Nat :=
  match e with
  | .InvalidRequest _ => 400
  | .PolicyNotFound _ => 404
  | _ => e.status_code

/-- C5 (amended): on a non-bypass path with a non-empty configured key set:
a presented key that is unknown — whether extracted from a readable
`Authorization` header or from an `api_key=`/`api-key=` query parameter —
is rejected with 401 `invalid_api_key`; a request with no `Authorization`
header and no `api_key=`/`api-key=` query parameter is rejected with
`InvalidRequest`, serialised as **400** (not 401 `invalid_api_key`); an
unreadable `Authorization` header is rejected with `InvalidRequest`
(400). -/
theorem claim_c5_api_key_rejections (config : RouterConfig) (req : AuthRequest)
    (keys : List String)
    (hpath1 : strStartsWith req.path "/health" = false) (hpath2 : req.path ≠ "/metrics")
    (hkeys : config.security.api_keys = some keys) (hne : keys ≠ []) :
    (∀ s, req.authorization = some (.valid s) →
      keys.contains (extract_header_key s) = false →
      api_key_service_call config req =
        .rejected (.ClientError 401 "Invalid API key" "invalid_api_key") ∧
      into_response_status (.ClientError 401 "Invalid API key" "invalid_api_key") = 401) ∧
    (∀ q k, req.authorization = none → req.query = some q →
      query_api_key q = some (some k) → keys.contains k = false →
      api_key_service_call config req =
        .rejected (.ClientError 401 "Invalid API key" "invalid_api_key") ∧
      into_response_status (.ClientError 401 "Invalid API key" "invalid_api_key") = 401) ∧
    (req.authorization = none → req.query = none →
      api_key_service_call config req =
        .rejected (.InvalidRequest
          "Missing API key in Authorization header or query parameter") ∧
      into_response_status (.InvalidRequest
          "Missing API key in Authorization header or query parameter") = 400) ∧
    (∀ q, req.authorization = none → req.query = some q → query_api_key q = none →
      api_key_service_call config req =
        .rejected (.InvalidRequest
          "Missing API key in Authorization header or query parameter") ∧
      into_response_status (.InvalidRequest
          "Missing API key in Authorization header or query parameter") = 400) ∧
    (req.authorization = some .invalid →
      api_key_service_call config req =
        .rejected (.InvalidRequest "Invalid Authorization header format") ∧
      into_response_status (.InvalidRequest "Invalid Authorization header format") = 400) := by
  have hbypass : (strStartsWith req.path "/health" || req.path = "/metrics") = false := by
    simp [hpath1, hpath2]
  have hkne : keys.isEmpty = false := by
    cases keys with
    | nil => exact absurd rfl hne
    | cons a as => rfl
  refine ⟨?_, ?_, ?_, ?_, ?_⟩
  · intro s hauth hmiss
    refine ⟨?_, rfl⟩
    simp [api_key_service_call, hbypass, hkeys, hkne, hauth, hmiss]
    simpa using hmiss
  · intro q k hauth hq hqk hmiss
    refine ⟨?_, rfl⟩
    simp [api_key_service_call, hbypass, hkeys, hkne, hauth, hq, hqk, hmiss]
    simpa using hmiss
  · intro hauth hq
    refine ⟨?_, rfl⟩
    simp [api_key_service_call, hbypass, hkeys, hkne, hauth, hq]
  · intro q hauth hq hnokey
    refine ⟨?_, rfl⟩
    simp [api_key_service_call, hbypass, hkeys, hkne, hauth, hq, hnokey]
  · intro hauth
    refine ⟨?_, rfl⟩
    simp [api_key_service_call, hbypass, hkeys, hkne, hauth]

/-- Counterexample to C5 as stated: API keys configured, request to
`/v1/chat/completions` with no `Authorization` header and no query string.
The claim requires 401 `invalid_api_key`; the code rejects with
`InvalidRequest` ("Missing API key…"), serialised as 400. -/
theorem claim_c5_counterexample :
    api_key_service_call
        { RouterConfig.defaultConfig with
            security := { api_keys := some ["secret-key"], rate_limit := none } }
        { path := "/v1/chat/completions", query := none, authorization := none } =
      AuthDecision.rejected (.InvalidRequest
        "Missing API key in Authorization header or query parameter") ∧
    AuthDecision.rejected (GatewayApiError.InvalidRequest
        "Missing API key in Authorization header or query parameter") ≠
      AuthDecision.rejected (.ClientError 401 "Invalid API key" "invalid_api_key") ∧
    into_response_status (.InvalidRequest
        "Missing API key in Authorization header or query parameter") = 400 := by
  refine ⟨rfl, ?_, rfl⟩
  intro h
  simp at h

/-- Witness for the amended C5: a wrong bearer key gets 401
`invalid_api_key`; a wrong key presented via the `api_key=` query
parameter also gets 401 `invalid_api_key`; a request with no credentials
at all gets the 400 `InvalidRequest` rejection. -/
theorem claim_c5_witness :
    api_key_service_call
        { RouterConfig.defaultConfig with
            security := { api_keys := some ["secret-key"], rate_limit := none } }
        { path := "/v1/chat/completions", query := none,
          authorization := some (.valid "Bearer wrong-key") } =
      AuthDecision.rejected (.ClientError 401 "Invalid API key" "invalid_api_key") ∧
    api_key_service_call
        { RouterConfig.defaultConfig with
            security := { api_keys := some ["secret-key"], rate_limit := none } }
        { path := "/v1/chat/completions", query := some "api_key=wrong-key",
          authorization := none } =
      AuthDecision.rejected (.ClientError 401 "Invalid API key" "invalid_api_key") ∧
    api_key_service_call
        { RouterConfig.defaultConfig with
            security := { api_keys := some ["secret-key"], rate_limit := none } }
        { path := "/v1/chat/completions", query := none, authorization := none } =
      AuthDecision.rejected (.InvalidRequest
        "Missing API key in Authorization header or query parameter") := by
  have h := claim_c5_api_key_rejections
    { RouterConfig.defaultConfig with
        security := { api_keys := some ["secret-key"], rate_limit := none } }
    { path := "/v1/chat/completions", query := none,
      authorization := some (.valid "Bearer wrong-key") }
    ["secret-key"] (by decide) (by decide) rfl (by decide)
  have hq := claim_c5_api_key_rejections
    { RouterConfig.defaultConfig with
        security := { api_keys := some ["secret-key"], rate_limit := none } }
    { path := "/v1/chat/completions", query := some "api_key=wrong-key",
      authorization := none }
    ["secret-key"] (by decide) (by decide) rfl (by decide)
  have h2 := claim_c5_api_key_rejections
    { RouterConfig.defaultConfig with
        security := { api_keys := some ["secret-key"], rate_limit := none } }
    { path := "/v1/chat/completions", query := none, authorization := none }
    ["secret-key"] (by decide) (by decide) rfl (by decide)
  exact ⟨(h.1 "Bearer wrong-key" rfl (by decide)).1,
    (hq.2.1 "api_key=wrong-key" "wrong-key" rfl rfl (by decide) (by decide)).1,
    (h2.2.2.1 rfl rfl).1⟩

/-! ### Load balancer (`loadbalance.rs`)

A Rust `panic!` is modelled by the `panics` constructor.  The `Random`
strategy's `thread_rng` draw is modelled by an oracle `rand`; `choose` on
the non-empty index range `0..count` yields some index `< count`, which the
oracle induces as `rand % count`. -/

inductive LoadBalancingStrategy where
  | RoundRobin
  | Random
  | First
deriving DecidableEq

structure LoadBalancer where
  strategy : LoadBalancingStrategy
  counters : List (String × Nat)

inductive PanicOr (α : Type) where
  | panics (msg : String)
  | ok (a : α)

/-- Association lookup in the counters map. -/
def countersLookup (k : String) : List (String × Nat) → Option Nat
  | [] => none
  | (k', v) :: rest => if k' = k then some v else countersLookup k rest

/-- Association update (insert-or-replace) in the counters map. -/
def countersSet (k : String) (v : Nat) : List (String × Nat) → List (String × Nat)
  | [] => [(k, v)]
  | (k', v') :: rest =>
    if k' = k then (k, v) :: rest else (k', v') :: countersSet k v rest

/-- `LoadBalancer::round_robin`: `entry(key).or_insert(0)` then
`fetch_add(1)`, returning `current % count`. -/
def lb_round_robin (lb : LoadBalancer) (key : String) (count : Nat) :
    Nat × LoadBalancer :=
  let current := (countersLookup key lb.counters).getD 0
  (current % count, { lb with counters := countersSet key (current + 1) lb.counters })

/-- `LoadBalancer::random`: a uniform index below `count` (`unwrap_or(0)`
for the empty range), induced by the oracle. -/
def lb_random (rand count : Nat) : Nat :=
  if count = 0 then 0 else rand % count

/-- `LoadBalancer::select_instance` (loadbalance.rs:54-85). -/
def select_instance (lb : LoadBalancer) (rand : Nat) (llm_name : String)
    (instances : List Llm) : PanicOr Llm × LoadBalancer :=
  match instances with
  | [] => (.panics "Cannot select instance from empty list", lb)
  | x :: rest =>
    if rest.isEmpty then
      (.ok x, lb)
    else
      let sel :=
        match lb.strategy with
        | .RoundRobin => lb_round_robin lb llm_name (x :: rest).length
        | .Random => (lb_random rand (x :: rest).length, lb)
        | .First => (0, lb)
      (.ok ((x :: rest).getD sel.1 x), sel.2)

/-- C6 (amended): `select_instance` panics (it does not surface
`RoutingError(ModelNotFound)`) on an empty instance list; on every
non-empty list it returns one of the list's instances and never panics. -/
theorem claim_c6_select_instance (lb : LoadBalancer) (rand : Nat) (name : String) :
    ((select_instance lb rand name []).1 =
      PanicOr.panics "Cannot select instance from empty list") ∧
    (∀ instances : List Llm, instances ≠ [] →
      ∃ l, (select_instance lb rand name instances).1 = PanicOr.ok l ∧
        l ∈ instances) := by
  have getD_mem : ∀ (l : List Llm) (n : Nat) (d : Llm), d ∈ l → l.getD n d ∈ l := by
    intro l n d hd
    rcases h : l[n]? with _ | v
    · simp [List.getD, h, hd]
    · have hv := List.getElem?_mem h
      simp [List.getD, h, hv]
  refine ⟨rfl, ?_⟩
  intro instances hne
  match instances with
  | [] => exact absurd rfl hne
  | x :: rest =>
    by_cases hr : rest.isEmpty
    · refine ⟨x, ?_, List.mem_cons_self x rest⟩
      simp [select_instance, hr]
    · cases hst : lb.strategy with
      | RoundRobin =>
        refine ⟨(x :: rest).getD (lb_round_robin lb name (x :: rest).length).1 x, ?_,
          getD_mem _ _ _ (List.mem_cons_self x rest)⟩
        simp [select_instance, hr, hst]
      | Random =>
        refine ⟨(x :: rest).getD (lb_random rand (x :: rest).length) x, ?_,
          getD_mem _ _ _ (List.mem_cons_self x rest)⟩
        simp [select_instance, hr, hst]
      | First =>
        refine ⟨(x :: rest).getD 0 x, ?_, getD_mem _ _ _ (List.mem_cons_self x rest)⟩
        simp [select_instance, hr, hst]

/-- Counterexample to C6 as stated: on the empty list the code panics with
"Cannot select instance from empty list"; no `RoutingError(ModelNotFound)`
is produced. -/
theorem claim_c6_counterexample :
    (select_instance { strategy := .RoundRobin, counters := [] } 0 "model-a" []).1 =
      PanicOr.panics "Cannot select instance from empty list" := rfl

/-- Witness for the amended C6: a singleton instance list yields its only
element. -/
theorem claim_c6_witness :
    ∃ l, (select_instance { strategy := .RoundRobin, counters := [] } 0 "m"
        [{ name := "m", api_base := "http://a", api_key := "k", model := "x" }]).1 =
      PanicOr.ok l ∧
      l ∈ [({ name := "m", api_base := "http://a", api_key := "k", model := "x" } : Llm)] :=
  (claim_c6_select_instance { strategy := .RoundRobin, counters := [] } 0 "m").2 _
    (by simp)

/-! ### Response cache: cacheability (`cache.rs:86-112`) -/

/-- `ResponseCache::is_cacheable`. -/
def is_cacheable (body : JsonValue) : Bool :=
  if ((body.getKey "stream").map (fun v => v.asBool == some true)).getD false then
    false
  else if ((body.getKey "cache").map (fun v => v.asBool == some false)).getD false then
    false
  else if ((body.getKey "temperature").bind JsonValue.asF64).any
      (fun temp => decide (temp > 1/100)) then
    false
  else if ((body.getKey "top_p").bind JsonValue.asF64).any
      (fun p => decide (p < 999/1000)) then
    false
  else
    true

/-- The spec's cacheability condition, stated from its words: `stream` is
not `true`; `cache` is not explicitly `false`; if `temperature` is present
(as a number — `as_f64`) it is ≤ 0.01; if `top_p` is present it is
≥ 0.999. -/
def is_cacheable_spec (body : JsonValue) : Prop :=
  body.getKey "stream" ≠ some (.bool true) ∧
  body.getKey "cache" ≠ some (.bool false) ∧
  (∀ t : ℚ, (body.getKey "temperature").bind JsonValue.asF64 = some t → t ≤ 1/100) ∧
  (∀ p : ℚ, (body.getKey "top_p").bind JsonValue.asF64 = some p → p ≥ 999/1000)

theorem bool_flag_iff (o : Option JsonValue) (b : Bool) :
    ((o.map (fun v => v.asBool == some b)).getD false = true) ↔
      o = some (.bool b) := by
  cases o with
  | none => simp
  | some v => cases v <;> simp [JsonValue.asBool]

theorem num_flag_iff (o : Option JsonValue) (p : ℚ → Bool) :
    ((o.bind JsonValue.asF64).any p = true) ↔
      ∃ t : ℚ, o.bind JsonValue.asF64 = some t ∧ p t = true := by
  cases h : o.bind JsonValue.asF64 with
  | none => simp
  | some t => simp [Option.any]

theorem is_cacheable_eq_true_iff (body : JsonValue) :
    is_cacheable body = true ↔ is_cacheable_spec body := by
  unfold is_cacheable is_cacheable_spec
  split_ifs with h1 h2 h3 h4
  · simp only [Bool.false_eq_true, false_iff]
    rw [bool_flag_iff] at h1
    tauto
  · simp only [Bool.false_eq_true, false_iff]
    rw [bool_flag_iff] at h2
    tauto
  · simp only [Bool.false_eq_true, false_iff]
    rw [num_flag_iff] at h3
    obtain ⟨t, ht, hp⟩ := h3
    intro hc
    have hle := hc.2.2.1 t ht
    simp at hp
    linarith
  · simp only [Bool.false_eq_true, false_iff]
    rw [num_flag_iff] at h4
    obtain ⟨t, ht, hp⟩ := h4
    intro hc
    have hle := hc.2.2.2 t ht
    simp at hp
    linarith
  · simp only [true_iff]
    rw [bool_flag_iff] at h1 h2
    rw [num_flag_iff] at h3 h4
    push_neg at h3 h4
    refine ⟨h1, h2, ?_, ?_⟩
    · intro t ht
      have := h3 t ht
      simpa using this
    · intro p hp
      have := h4 p hp
      simpa using this

/-- C7: `is_cacheable` returns `true` exactly under the spec's conditions,
and the three quoted examples evaluate as stated. -/
theorem claim_c7_is_cacheable :
    (∀ body : JsonValue, is_cacheable body = true ↔ is_cacheable_spec body) ∧
    is_cacheable (.obj [("stream", .bool true), ("temperature", .num 0)]) = false ∧
    is_cacheable (.obj [("temperature", .num 0), ("top_p", .num 1)]) = true ∧
    is_cacheable (.obj [("temperature", .num (1/2))]) = false := by
  refine ⟨is_cacheable_eq_true_iff, rfl, ?_, ?_⟩
  · rw [is_cacheable_eq_true_iff]
    refine ⟨by simp [JsonValue.getKey, lookupKV], by simp [JsonValue.getKey, lookupKV], ?_, ?_⟩
    · intro t ht
      simp [JsonValue.getKey, lookupKV, JsonValue.asF64] at ht
      subst ht
      norm_num
    · intro p hp
      simp [JsonValue.getKey, lookupKV, JsonValue.asF64] at hp
      subst hp
      norm_num
  · cases hb : is_cacheable (.obj [("temperature", .num (1/2))]) with
    | false => rfl
    | true =>
      have hs := (is_cacheable_eq_true_iff _).mp hb
      have := hs.2.2.1 (1/2)
        (by simp [JsonValue.getKey, lookupKV, JsonValue.asF64])
      norm_num at this

/-- Witness for C7: the cacheable example satisfies the spec's condition,
through the equivalence. -/
theorem claim_c7_witness :
    is_cacheable_spec (.obj [("temperature", .num 0), ("top_p", .num 1)]) :=
  (claim_c7_is_cacheable.1 _).mp claim_c7_is_cacheable.2.2.1

/-! ### Response cache: key generation (`cache.rs:57-83`)

`generate_key` hashes `path + ":" + serde_json::to_string(normalized_body)`
with SHA-256 and base64-encodes the digest.  The canonical serialisation
iterates object keys in sorted order (serde_json's default `BTreeMap`);
numbers are rendered by an injective deterministic map from `ℚ` standing in
for ryu's shortest-round-trip `f64` rendering (itself injective on `f64`).
Bytes are `Nat` below 256; 32-bit words are `Nat` with explicit `% 2 ^ 32`. -/

/-- Generic first-match association lookup. -/
def lookupAssoc {α : Type} (k : String) : List (String × α) → Option α
  | [] => none
  | (k', v) :: rest => if k' = k then some v else lookupAssoc k rest

theorem lookupKV_eq_lookupAssoc (k : String) (l : List (String × JsonValue)) :
    lookupKV k l = lookupAssoc k l := by
  induction l with
  | nil => rfl
  | cons kv rest ih => cases kv with | mk k' v => simp [lookupKV, lookupAssoc, ih]

/-- UTF-8 bytes of a string (`str::as_bytes`). -/
def strBytes (s : String) : List Nat :=
  s.toUTF8.toList.map (fun b => b.toNat)

/-- Lowercase hexadecimal digit. -/
def hexDigitChar (n : Nat) : Char :=
  "0123456789abcdef".toList.getD n '0'

/-- serde_json's string escaping: `"` and `\` are escaped, control
characters get their short escapes or `\u00XX`. -/
def escapeChar (c : Char) : String :=
  if c = '"' then "\\\""
  else if c = '\\' then "\\\\"
  else if c = '\n' then "\\n"
  else if c = '\r' then "\\r"
  else if c = '\t' then "\\t"
  else if c.toNat = 8 then "\\b"
  else if c.toNat = 12 then "\\f"
  else if c.toNat < 32 then
    "\\u00" ++ String.singleton (hexDigitChar (c.toNat / 16)) ++
      String.singleton (hexDigitChar (c.toNat % 16))
  else
    String.singleton c

/-- A JSON string literal. -/
def renderString (s : String) : String :=
  "\"" ++ String.join (s.toList.map escapeChar) ++ "\""

/-- Deterministic injective rendering of the number model (stands in for
ryu's shortest-round-trip rendering of `f64`, which is injective). -/
def renderNum (q : ℚ) : String :=
  if q.den = 1 then toString q.num else toString q.num ++ "/" ++ toString q.den

/-- The relation ordering serialised object fields by key. -/
def fieldOrder (p q : String × String) : Prop := p.1 ≤ q.1

instance : DecidableRel fieldOrder := fun p q =>
  inferInstanceAs (Decidable (p.1 ≤ q.1))

instance : IsTotal (String × String) fieldOrder := ⟨fun a b => le_total a.1 b.1⟩

instance : IsTrans (String × String) fieldOrder :=
  ⟨fun _ _ _ hab hbc => le_trans hab hbc⟩

/-- Sorted-by-key field order for serialisation (`BTreeMap` iteration). -/
def sortFields (l : List (String × String)) : List (String × String) :=
  List.insertionSort fieldOrder l

mutual

/-- Compact serde_json serialisation of the value model. -/
def renderJson : JsonValue → String
  | .null => "null"
  | .bool b => cond b "true" "false"
  | .num q => renderNum q
  | .str s => renderString s
  | .arr items => "[" ++ String.intercalate "," (renderList items) ++ "]"
  | .obj fields =>
    "\x7b" ++ String.intercalate ","
      ((sortFields (renderPairs fields)).map
        (fun kv => renderString kv.1 ++ ":" ++ kv.2)) ++ "\x7d"

/-- Serialisation of array elements, in order. -/
def renderList : List JsonValue → List String
  | [] => []
  | j :: rest => renderJson j :: renderList rest

/-- Serialisation of object fields: keys with serialised values. -/
def renderPairs : List (String × JsonValue) → List (String × String)
  | [] => []
  | (k, v) :: rest => (k, renderJson v) :: renderPairs rest

end

/-- The cache-key allow-list (`fields_to_keep` in the source). -/
def fields_to_keep : List String :=
  ["messages", "model", "temperature", "top_p", "max_tokens",
   "frequency_penalty", "presence_penalty", "stop"]

/-- The body normalisation inside `generate_key`: remove `nim-llm-router`,
`stream`, `stream_options`, then retain only the allow-list. -/
def normalize_fields (fields : List (String × JsonValue)) : List (String × JsonValue) :=
  ((((fields.filter (fun kv => kv.1 != "nim-llm-router")).filter
      (fun kv => kv.1 != "stream")).filter
      (fun kv => kv.1 != "stream_options")).filter
      (fun kv => fields_to_keep.contains kv.1))

/-- `generate_key`'s sanitised body: field surgery applies to objects only. -/
def normalize_body : JsonValue → JsonValue
  | .obj fields => .obj (normalize_fields fields)
  | j => j

/-- 32-bit right rotation. -/
def rotr32 (n x : Nat) : Nat :=
  ((x >>> n) ||| (x <<< (32 - n))) % 2 ^ 32

structure Sha256State where
  a : Nat
  b : Nat
  c : Nat
  d : Nat
  e : Nat
  f : Nat
  g : Nat
  h : Nat

/-- Bisection step for the integer cube root. -/
def icbrtGo (n : Nat) : Nat → Nat → Nat → Nat
  | lo, _, 0 => lo
  | lo, hi, fuel + 1 =>
    let mid := (lo + hi + 1) / 2
    if mid ^ 3 ≤ n then icbrtGo n mid hi fuel else icbrtGo n lo (mid - 1) fuel

/-- Integer cube root by bisection (256 halvings cover every input the
constants need). -/
def icbrt (n : Nat) : Nat := icbrtGo n 0 n 256

/-- The first 32 fractional bits of `sqrt p` (FIPS 180-4 initial values). -/
def fracSqrtWord (p : Nat) : Nat := Nat.sqrt (p * 2 ^ 64) % 2 ^ 32

/-- The first 32 fractional bits of the cube root of `p` (FIPS 180-4 round
constants). -/
def fracCbrtWord (p : Nat) : Nat := icbrt (p * 2 ^ 96) % 2 ^ 32

/-- The first sixty-four primes, whose cube roots seed the round
constants. -/
def sha256ConstantPrimes : List Nat :=
  [2, 3, 5, 7, 11, 13, 17, 19, 23, 29, 31, 37, 41, 43, 47, 53,
   59, 61, 67, 71, 73, 79, 83, 89, 97, 101, 103, 107, 109, 113, 127, 131,
   137, 139, 149, 151, 157, 163, 167, 173, 179, 181, 191, 193, 197, 199, 211, 223,
   227, 229, 233, 239, 241, 251, 257, 263, 269, 271, 277, 281, 283, 293, 307, 311]

/-- The SHA-256 initial hash values: fractional square-root bits of the
first eight primes. -/
def sha256InitialState : Sha256State :=
  ⟨fracSqrtWord 2, fracSqrtWord 3, fracSqrtWord 5, fracSqrtWord 7,
   fracSqrtWord 11, fracSqrtWord 13, fracSqrtWord 17, fracSqrtWord 19⟩

/-- The sixty-four SHA-256 round constants. -/
def sha256K : List Nat := sha256ConstantPrimes.map fracCbrtWord

/-- Big-endian byte rendering of `val` on `n` bytes. -/
def beBytes (n val : Nat) : List Nat :=
  (List.range n).map (fun i => (val >>> (8 * (n - 1 - i))) % 256)

/-- SHA-256 padding: `0x80`, zeros to 56 mod 64, then the 64-bit
big-endian bit length. -/
def padMessage (msg : List Nat) : List Nat :=
  let padLen := (55 + 64 - msg.length % 64) % 64
  msg ++ [0x80] ++ List.replicate padLen 0 ++ beBytes 8 (msg.length * 8)

/-- Split into 64-byte chunks. -/
def chunks64 : List Nat → List (List Nat)
  | [] => []
  | x :: xs => List.take 64 (x :: xs) :: chunks64 (xs.drop 63)
termination_by l => l.length
decreasing_by
  simp [List.length_drop]
  omega

/-- The `i`-th big-endian 32-bit word of a chunk. -/
def wordAt (chunk : List Nat) (i : Nat) : Nat :=
  chunk.getD (4 * i) 0 * 2 ^ 24 + chunk.getD (4 * i + 1) 0 * 2 ^ 16 +
    chunk.getD (4 * i + 2) 0 * 2 ^ 8 + chunk.getD (4 * i + 3) 0

def initialWords (chunk : List Nat) : List Nat :=
  (List.range 16).map (wordAt chunk)

def smallSigma0 (x : Nat) : Nat := rotr32 7 x ^^^ rotr32 18 x ^^^ (x >>> 3)

def smallSigma1 (x : Nat) : Nat := rotr32 17 x ^^^ rotr32 19 x ^^^ (x >>> 10)

def bigSigma0 (x : Nat) : Nat := rotr32 2 x ^^^ rotr32 13 x ^^^ rotr32 22 x

def bigSigma1 (x : Nat) : Nat := rotr32 6 x ^^^ rotr32 11 x ^^^ rotr32 25 x

/-- Message-schedule extension by `n` further words. -/
def extendWords (w : List Nat) : Nat → List Nat
  | 0 => w
  | n + 1 =>
    let i := w.length
    let next := (smallSigma1 (w.getD (i - 2) 0) + w.getD (i - 7) 0 +
      smallSigma0 (w.getD (i - 15) 0) + w.getD (i - 16) 0) % 2 ^ 32
    extendWords (w ++ [next]) n

def messageSchedule (chunk : List Nat) : List Nat :=
  extendWords (initialWords chunk) 48

/-- One SHA-256 round on the working state with a constant/schedule pair. -/
def sha256Round (st : Sha256State) (kw : Nat × Nat) : Sha256State :=
  let ch := (st.e &&& st.f) ^^^ ((st.e ^^^ (2 ^ 32 - 1)) &&& st.g)
  let t1 := (st.h + bigSigma1 st.e + ch + kw.1 + kw.2) % 2 ^ 32
  let maj := (st.a &&& st.b) ^^^ (st.a &&& st.c) ^^^ (st.b &&& st.c)
  let t2 := (bigSigma0 st.a + maj) % 2 ^ 32
  ⟨(t1 + t2) % 2 ^ 32, st.a, st.b, st.c, (st.d + t1) % 2 ^ 32, st.e, st.f, st.g⟩

/-- Compress one 64-byte chunk into the running state. -/
def sha256Compress (st : Sha256State) (chunk : List Nat) : Sha256State :=
  let w := messageSchedule chunk
  let t := (sha256K.zip w).foldl sha256Round st
  ⟨(st.a + t.a) % 2 ^ 32, (st.b + t.b) % 2 ^ 32, (st.c + t.c) % 2 ^ 32,
   (st.d + t.d) % 2 ^ 32, (st.e + t.e) % 2 ^ 32, (st.f + t.f) % 2 ^ 32,
   (st.g + t.g) % 2 ^ 32, (st.h + t.h) % 2 ^ 32⟩

/-- Big-endian bytes of one 32-bit word. -/
def wordBytes (w : Nat) : List Nat :=
  [(w >>> 24) % 256, (w >>> 16) % 256, (w >>> 8) % 256, w % 256]

/-- SHA-256 digest (32 bytes) of a byte sequence. -/
def sha256 (msg : List Nat) : List Nat :=
  let final := (chunks64 (padMessage msg)).foldl sha256Compress sha256InitialState
  wordBytes final.a ++ wordBytes final.b ++ wordBytes final.c ++ wordBytes final.d ++
    wordBytes final.e ++ wordBytes final.f ++ wordBytes final.g ++ wordBytes final.h

def base64Chars : List Char :=
  "ABCDEFGHIJKLMNOPQRSTUVWXYZabcdefghijklmnopqrstuvwxyz0123456789+/".toList

def b64c (n : Nat) : String :=
  String.singleton (base64Chars.getD n 'A')

/-- Standard base64 with `=` padding (`general_purpose::STANDARD`). -/
def base64Encode : List Nat → String
  | [] => ""
  | [a] => b64c (a / 4) ++ b64c ((a % 4) * 16) ++ "=="
  | [a, b] => b64c (a / 4) ++ b64c ((a % 4) * 16 + b / 16) ++ b64c ((b % 16) * 4) ++ "="
  | a :: b :: c :: rest =>
    b64c (a / 4) ++ b64c ((a % 4) * 16 + b / 16) ++ b64c ((b % 16) * 4 + c / 64) ++
      b64c (c % 64) ++ base64Encode rest

/-- `ResponseCache::generate_key(body, path)`. -/
def generate_key (body : JsonValue) (path : String) : String :=
  base64Encode (sha256 (strBytes (path ++ ":" ++ renderJson (normalize_body body))))

theorem lookupAssoc_filter {α : Type} (p : String → Bool) (k : String)
    (l : List (String × α)) :
    lookupAssoc k (l.filter (fun kv => p kv.1)) =
      if p k = true then lookupAssoc k l else none := by
  induction l with
  | nil => simp [lookupAssoc]
  | cons kv t ih =>
    obtain ⟨k', v⟩ := kv
    by_cases hp : p k' = true
    · by_cases hk : k' = k
      · subst hk
        simp [List.filter_cons, hp, lookupAssoc]
      · simp [List.filter_cons, hp, lookupAssoc, hk, ih]
    · by_cases hk : k' = k
      · subst hk
        simp [List.filter_cons, hp, lookupAssoc, ih]
      · simp [List.filter_cons, hp, lookupAssoc, hk, ih]

theorem keep_removed_ne (k : String) (h : fields_to_keep.contains k = true) :
    (k != "nim-llm-router") = true ∧ (k != "stream") = true ∧
      (k != "stream_options") = true := by
  simp [fields_to_keep] at h
  rcases h with rfl | rfl | rfl | rfl | rfl | rfl | rfl | rfl <;> exact ⟨rfl, rfl, rfl⟩

theorem lookupAssoc_normalize (l : List (String × JsonValue)) (k : String) :
    lookupAssoc k (normalize_fields l) =
      if fields_to_keep.contains k = true then lookupAssoc k l else none := by
  unfold normalize_fields
  rw [lookupAssoc_filter (fun s => fields_to_keep.contains s),
    lookupAssoc_filter (fun s => s != "stream_options"),
    lookupAssoc_filter (fun s => s != "stream"),
    lookupAssoc_filter (fun s => s != "nim-llm-router")]
  by_cases hk : fields_to_keep.contains k = true
  · obtain ⟨n1, n2, n3⟩ := keep_removed_ne k hk
    rw [if_pos hk, if_pos n3, if_pos n2, if_pos n1, if_pos hk]
  · rw [if_neg hk, if_neg hk]

theorem getKey_normalize_keep (l : List (String × JsonValue)) (k : String)
    (hk : fields_to_keep.contains k = true) :
    (normalize_body (.obj l)).getKey k = (JsonValue.obj l).getKey k := by
  show lookupKV k (normalize_fields l) = lookupKV k l
  rw [lookupKV_eq_lookupAssoc, lookupKV_eq_lookupAssoc, lookupAssoc_normalize, if_pos hk]

theorem normalize_keys_nodup (l : List (String × JsonValue))
    (h : (l.map Prod.fst).Nodup) : ((normalize_fields l).map Prod.fst).Nodup := by
  refine h.sublist ?_
  unfold normalize_fields
  exact ((((List.filter_sublist _).map Prod.fst).trans
    ((List.filter_sublist _).map Prod.fst)).trans
    ((List.filter_sublist _).map Prod.fst)).trans
    ((List.filter_sublist _).map Prod.fst)

theorem renderPairs_map_fst (l : List (String × JsonValue)) :
    (renderPairs l).map Prod.fst = l.map Prod.fst := by
  induction l with
  | nil => rfl
  | cons kv t ih => obtain ⟨k, v⟩ := kv; simp [renderPairs, ih]

theorem lookupAssoc_renderPairs (k : String) (l : List (String × JsonValue)) :
    lookupAssoc k (renderPairs l) = (lookupAssoc k l).map renderJson := by
  induction l with
  | nil => rfl
  | cons kv t ih =>
    obtain ⟨k', v⟩ := kv
    by_cases hk : k' = k
    · subst hk; simp [renderPairs, lookupAssoc]
    · simp [renderPairs, lookupAssoc, hk, ih]

theorem lookupAssoc_eq_some_iff_mem {α : Type} (l : List (String × α))
    (hn : (l.map Prod.fst).Nodup) (k : String) (v : α) :
    lookupAssoc k l = some v ↔ (k, v) ∈ l := by
  induction l with
  | nil => simp [lookupAssoc]
  | cons kv t ih =>
    obtain ⟨k', v'⟩ := kv
    simp only [List.map_cons, List.nodup_cons] at hn
    obtain ⟨hk', hnod⟩ := hn
    by_cases h : k' = k
    · subst h
      simp only [lookupAssoc, if_pos rfl, List.mem_cons]
      constructor
      · intro hv
        left
        cases hv
        rfl
      · rintro (h | hmem)
        · cases h
          rfl
        · exact absurd (List.mem_map.mpr ⟨(k', v), hmem, rfl⟩) hk'
    · simp only [lookupAssoc, if_neg h, List.mem_cons, ih hnod]
      constructor
      · intro hmem
        exact Or.inr hmem
      · rintro (heq | hmem)
        · cases heq
          exact absurd rfl h
        · exact hmem

/-- The strict serialisation order on fields; antisymmetric outright. -/
def fieldOrderLt (p q : String × String) : Prop := p.1 < q.1

instance : IsAntisymm (String × String) fieldOrderLt :=
  ⟨fun a _ h1 h2 => absurd (lt_trans h1 h2) (lt_irrefl a.1)⟩

theorem sortFields_sorted_lt (r : List (String × String))
    (hr : (r.map Prod.fst).Nodup) :
    List.Sorted fieldOrderLt (sortFields r) := by
  have hs : List.Sorted fieldOrder (sortFields r) :=
    List.sorted_insertionSort fieldOrder r
  have hperm : List.Perm (sortFields r) r := List.perm_insertionSort fieldOrder r
  have hnd : ((sortFields r).map Prod.fst).Nodup :=
    ((hperm.map Prod.fst).nodup_iff).mpr hr
  have hne : (sortFields r).Pairwise (fun p q => p.1 ≠ q.1) :=
    List.pairwise_map.mp hnd
  exact (hs.and hne).imp (fun h => lt_of_le_of_ne h.1 h.2)

theorem sortFields_eq_of_lookup_eq (r1 r2 : List (String × String))
    (h1 : (r1.map Prod.fst).Nodup) (h2 : (r2.map Prod.fst).Nodup)
    (hl : ∀ k, lookupAssoc k r1 = lookupAssoc k r2) :
    sortFields r1 = sortFields r2 := by
  have hmem : ∀ a : String × String, a ∈ r1 ↔ a ∈ r2 := by
    rintro ⟨k, v⟩
    rw [← lookupAssoc_eq_some_iff_mem r1 h1, ← lookupAssoc_eq_some_iff_mem r2 h2, hl]
  have hp12 : List.Perm r1 r2 :=
    (List.perm_ext_iff_of_nodup (List.Nodup.of_map _ h1) (List.Nodup.of_map _ h2)).2 hmem
  have hperm : List.Perm (sortFields r1) (sortFields r2) :=
    ((List.perm_insertionSort fieldOrder r1).trans hp12).trans
      (List.perm_insertionSort fieldOrder r2).symm
  exact List.eq_of_perm_of_sorted hperm (sortFields_sorted_lt r1 h1)
    (sortFields_sorted_lt r2 h2)

theorem renderJson_obj_eq (l1 l2 : List (String × JsonValue))
    (h1 : (l1.map Prod.fst).Nodup) (h2 : (l2.map Prod.fst).Nodup)
    (hl : ∀ k, lookupAssoc k l1 = lookupAssoc k l2) :
    renderJson (.obj l1) = renderJson (.obj l2) := by
  have e : sortFields (renderPairs l1) = sortFields (renderPairs l2) := by
    refine sortFields_eq_of_lookup_eq _ _ ?_ ?_ ?_
    · rw [renderPairs_map_fst]; exact h1
    · rw [renderPairs_map_fst]; exact h2
    · intro k
      rw [lookupAssoc_renderPairs, lookupAssoc_renderPairs, hl]
  unfold renderJson
  rw [e]

/-- For JSON object bodies with duplicate-free keys, `generate_key` is a
function of the allow-listed fields alone: bodies that agree on every
allow-list field produce the same key for every path (so adding, removing,
or permuting fields outside the allow-list leaves the key unchanged), and
changing an allow-listed field changes the normalised body that is
serialised and hashed. -/
theorem generate_key_allowlist_determined (path : String) (f1 f2 : List (String × JsonValue))
    (h1 : (f1.map Prod.fst).Nodup) (h2 : (f2.map Prod.fst).Nodup) :
    ((∀ k, fields_to_keep.contains k = true →
        (JsonValue.obj f1).getKey k = (JsonValue.obj f2).getKey k) →
      generate_key (.obj f1) path = generate_key (.obj f2) path) ∧
    (∀ k, fields_to_keep.contains k = true →
      (JsonValue.obj f1).getKey k ≠ (JsonValue.obj f2).getKey k →
      normalize_body (.obj f1) ≠ normalize_body (.obj f2)) := by
  constructor
  · intro hagree
    have hrender : renderJson (normalize_body (.obj f1)) =
        renderJson (normalize_body (.obj f2)) := by
      show renderJson (.obj (normalize_fields f1)) = renderJson (.obj (normalize_fields f2))
      refine renderJson_obj_eq _ _ (normalize_keys_nodup f1 h1)
        (normalize_keys_nodup f2 h2) ?_
      intro k
      rw [lookupAssoc_normalize, lookupAssoc_normalize]
      by_cases hk : fields_to_keep.contains k = true
      · have hg := hagree k hk
        simp only [JsonValue.getKey, lookupKV_eq_lookupAssoc] at hg
        rw [if_pos hk, if_pos hk, hg]
      · rw [if_neg hk, if_neg hk]
    unfold generate_key
    rw [hrender]
  · intro k hk hne heq
    exact hne (by rw [← getKey_normalize_keep f1 k hk, ← getKey_normalize_keep f2 k hk, heq])

/-- Little-endian base-256 value of a byte list (used only to embed digests
into a finite type). -/
def digestNat : List Nat → Nat
  | [] => 0
  | b :: rest => b + 256 * digestNat rest

theorem digestNat_lt (l : List Nat) (hb : ∀ b ∈ l, b < 256) :
    digestNat l < 256 ^ l.length := by
  induction l with
  | nil => simp [digestNat]
  | cons b rest ih =>
    have h1 : b < 256 := hb b (List.mem_cons_self _ _)
    have h2 := ih (fun x hx => hb x (List.mem_cons_of_mem _ hx))
    simp only [digestNat, List.length_cons, pow_succ]
    have h3 : 256 ^ rest.length * 256 = 256 * 256 ^ rest.length := by ring
    rw [h3]
    omega

theorem digestNat_inj : ∀ (l1 l2 : List Nat), l1.length = l2.length →
    (∀ b ∈ l1, b < 256) → (∀ b ∈ l2, b < 256) →
    digestNat l1 = digestNat l2 → l1 = l2 := by
  intro l1
  induction l1 with
  | nil =>
    intro l2 hlen _ _ _
    cases l2 with
    | nil => rfl
    | cons b t => simp at hlen
  | cons b1 t1 ih =>
    intro l2 hlen hb1 hb2 hd
    cases l2 with
    | nil => simp at hlen
    | cons b2 t2 =>
      simp only [digestNat] at hd
      have h1 : b1 < 256 := hb1 _ (List.mem_cons_self _ _)
      have h2 : b2 < 256 := hb2 _ (List.mem_cons_self _ _)
      have hb : b1 = b2 ∧ digestNat t1 = digestNat t2 := by omega
      obtain ⟨rfl, hdig⟩ := hb
      rw [ih t2 (by simpa using hlen) (fun x hx => hb1 x (List.mem_cons_of_mem _ hx))
        (fun x hx => hb2 x (List.mem_cons_of_mem _ hx)) hdig]

theorem sha256_length (msg : List Nat) : (sha256 msg).length = 32 := by
  simp [sha256, wordBytes]

theorem wordBytes_mem_lt (w : Nat) : ∀ b ∈ wordBytes w, b < 256 := by
  intro b hb
  simp only [wordBytes, List.mem_cons, List.not_mem_nil, or_false] at hb
  rcases hb with rfl | rfl | rfl | rfl <;> exact Nat.mod_lt _ (by norm_num)

theorem sha256_mem_lt (msg : List Nat) : ∀ b ∈ sha256 msg, b < 256 := by
  intro b hb
  simp only [sha256, List.mem_append] at hb
  rcases hb with ((((((h | h) | h) | h) | h) | h) | h) | h <;>
    exact wordBytes_mem_lt _ b h

/-- A family of bodies differing only in the allow-listed `model` field. -/
def modelBody (n : Nat) : JsonValue :=
  .obj [("model", .str (String.mk (List.replicate n 'a')))]

/-- The input hashed by `generate_key` for `modelBody n`. -/
def keyBytes (n : Nat) : List Nat :=
  strBytes ("/v1/chat/completions" ++ ":" ++ renderJson (normalize_body (modelBody n)))

/-- The digest of `modelBody n`'s cache key, embedded into the finite type
of 256-bit values. -/
def keyFin (n : Nat) : Fin (256 ^ 32) :=
  ⟨digestNat (sha256 (keyBytes n)), by
    have h := digestNat_lt _ (sha256_mem_lt (keyBytes n))
    rwa [sha256_length] at h⟩

/-- The 256-bit digest cannot separate every change of an allow-listed
field: infinitely many bodies differing only in the allow-listed `model`
field map into the finite space of 256-bit digests, so two distinct ones
share their `generate_key` output (a cardinality fact; no explicit
colliding pair is known for SHA-256). -/
theorem generate_key_digest_collision :
    ∃ n m : Nat, n ≠ m ∧ modelBody n ≠ modelBody m ∧
      (modelBody n).getKey "model" ≠ (modelBody m).getKey "model" ∧
      (∀ k, k ≠ "model" → (modelBody n).getKey k = (modelBody m).getKey k) ∧
      generate_key (modelBody n) "/v1/chat/completions" =
        generate_key (modelBody m) "/v1/chat/completions" := by
  obtain ⟨n, m, hnm, heq⟩ := Finite.exists_ne_map_eq_of_infinite keyFin
  simp only [keyFin, Fin.mk.injEq] at heq
  have hdig : sha256 (keyBytes n) = sha256 (keyBytes m) :=
    digestNat_inj (sha256 (keyBytes n)) (sha256 (keyBytes m))
      (by rw [sha256_length, sha256_length]) (sha256_mem_lt _) (sha256_mem_lt _) heq
  have hrepl : List.replicate n 'a' ≠ List.replicate m 'a' := by
    intro h
    exact hnm (by simpa using congrArg List.length h)
  have hstr : JsonValue.str (String.mk (List.replicate n 'a')) ≠
      JsonValue.str (String.mk (List.replicate m 'a')) := by
    intro h2
    have h3 := congrArg
      (fun j => match j with | JsonValue.str s => s.data | _ => ([] : List Char)) h2
    exact hrepl h3
  have e1 : (modelBody n).getKey "model" =
      some (JsonValue.str (String.mk (List.replicate n 'a'))) := rfl
  have e2 : (modelBody m).getKey "model" =
      some (JsonValue.str (String.mk (List.replicate m 'a'))) := rfl
  refine ⟨n, m, hnm, ?_, ?_, ?_, ?_⟩
  · intro h
    have hg := congrArg (fun j => JsonValue.getKey j "model") h
    simp only at hg
    rw [e1, e2] at hg
    exact hstr (Option.some.inj hg)
  · intro h
    rw [e1, e2] at h
    exact hstr (Option.some.inj h)
  · intro k hk
    show lookupKV k _ = lookupKV k _
    unfold lookupKV
    rw [if_neg (fun h => hk h.symm), if_neg (fun h => hk h.symm)]
  · show base64Encode (sha256 (keyBytes n)) = base64Encode (sha256 (keyBytes m))
    rw [hdig]

/-- Concrete instance of `generate_key_allowlist_determined`: two bodies
sharing the allow-listed `model` field but with different extra fields get
the same key, and two bodies with different `temperature` values get
different normalised bodies. -/
theorem generate_key_allowlist_determined_example :
    generate_key (.obj [("model", .str "m"), ("extra", .num 1)]) "/v1/chat/completions" =
      generate_key (.obj [("other", .bool true), ("model", .str "m")])
        "/v1/chat/completions" ∧
    normalize_body (.obj [("temperature", .num 0)]) ≠
      normalize_body (.obj [("temperature", .num 1)]) := by
  have h := generate_key_allowlist_determined "/v1/chat/completions"
    [("model", .str "m"), ("extra", .num 1)] [("other", .bool true), ("model", .str "m")]
    (by decide) (by decide)
  have h2 := generate_key_allowlist_determined "/v1/chat/completions"
    [("temperature", .num 0)] [("temperature", .num 1)] (by decide) (by decide)
  refine ⟨h.1 ?_, h2.2 "temperature" (by decide) ?_⟩
  · intro k hk
    simp [fields_to_keep] at hk
    rcases hk with rfl | rfl | rfl | rfl | rfl | rfl | rfl | rfl <;> rfl
  · intro hcon
    simp only [JsonValue.getKey, lookupKV, if_pos rfl, Option.some.injEq,
      JsonValue.num.injEq] at hcon
    norm_num at hcon
